import Mathlib

/-!
# Verification of the DouK-Downloader container bootstrap and health-check subsystem

Shallow embedding of `docker_entry.py`, `healthcheck.py` and `api_main.py`:

* `init_settings` reconciles the JSON settings document (`docker_entry.py`,
  `init_settings`);
* `init_database` creates and seeds the SQLite tables (`docker_entry.py`,
  `init_database`);
* `bootstrap` composes `ensure_volume`, `init_settings` and `init_database`
  on the whole volume state (`docker_entry.py`, `main`);
* `check`, `healthcheck_timeout`, `healthcheck_port` model `healthcheck.py`;
* `start_api_only_port` models the PORT handling of `api_main.py`.

Files on disk are modelled explicitly: a settings file is absent, corrupt, or
parses to a JSON value; the database file is absent or holds a set of tables,
each of which is absent or holds a list of rows.
-/

namespace DouK

/-- JSON values as produced by Python's `json.load`.  Objects keep their
fields as an association list (a Python `dict` preserves insertion order and
has no duplicate keys; the embedding does not need the no-duplicate
invariant for any theorem).  JSON numbers are simplified to integers: no
claim inspects a numeric JSON value. -/
inductive Json where
  | null : Json
  | bool (b : Bool) : Json
  | num (n : Int) : Json
  | str (s : String) : Json
  | arr (elems : List Json) : Json
  | obj (fields : List (String × Json)) : Json

/-- `true` exactly when the value is a JSON object (Python `isinstance(data, dict)`). -/
def Json.isObj : Json → Bool
  | .obj _ => true
  | _ => false

/-- First value stored under a key in an association-list table; models both a
Python `dict` access and `SELECT VALUE ... WHERE NAME = key` on a table whose
key column is a primary key. -/
def tlookup {α : Type} : List (String × α) → String → Option α
  | [], _ => none
  | (k, v) :: rest, key => if k = key then some v else tlookup rest key

/-- Python `d[key] = v` on a `dict`: replace the value at the first occurrence
of the key, otherwise append the new pair. -/
def dictSet {α : Type} : List (String × α) → String → α → List (String × α)
  | [], key, v => [(key, v)]
  | (k, w) :: rest, key, v =>
      if k = key then (key, v) :: rest else (k, w) :: dictSet rest key v

/-- A settings file on disk: `none` = absent file, `some none` = present but
not parseable as JSON (`json.load` raises), `some (some j)` = parses to `j`. -/
def SettingsFile : Type := Option (Option Json)

/-- The `data` dict obtained by the load phase of `init_settings`
(`docker_entry.py` lines 40-49): parse failure, absence, and non-`dict`
values all collapse to the empty dict. -/
def loadSettings : SettingsFile → List (String × Json)
  | none => []
  | some none => []
  | some (some (Json.obj fields)) => fields
  | some (some _) => []

/-- `init_settings` (`docker_entry.py` lines 29-55): load-or-default the
settings dict, then force `data["run_command"] = "7"`.  The returned dict is
what `json.dump` persists. -/
def init_settings (file : SettingsFile) : List (String × Json) :=
  dictSet (loadSettings file) "run_command" (Json.str "7")

/-! ## Association-list lemmas -/

theorem tlookup_dictSet_self {α : Type} (d : List (String × α)) (k : String) (v : α) :
    tlookup (dictSet d k v) k = some v := by
  induction d with
  | nil => simp [dictSet, tlookup]
  | cons p rest ih =>
    obtain ⟨a, b⟩ := p
    by_cases h : a = k
    · simp [dictSet, tlookup, h]
    · simp [dictSet, tlookup, h, ih]

theorem tlookup_dictSet_ne {α : Type} (d : List (String × α)) (k key : String) (v : α)
    (h : k ≠ key) : tlookup (dictSet d key v) k = tlookup d k := by
  induction d with
  | nil => simp [dictSet, tlookup, Ne.symm h]
  | cons p rest ih =>
    obtain ⟨a, b⟩ := p
    by_cases ha : a = key
    · subst ha
      simp [dictSet, tlookup, Ne.symm h]
    · simp [dictSet, tlookup, ha, ih]

theorem dictSet_dictSet_self {α : Type} (d : List (String × α)) (k : String) (v : α) :
    dictSet (dictSet d k v) k v = dictSet d k v := by
  induction d with
  | nil => simp [dictSet]
  | cons p rest ih =>
    obtain ⟨a, b⟩ := p
    by_cases h : a = k
    · simp [dictSet, h]
    · simp [dictSet, h, ih]

/-! ## Settings claims -/

/-- **C1.** For every prior state of the settings document (absent, corrupt,
or containing any prior value for the forced key), the dict persisted by
`init_settings` maps `run_command` to the sentinel `"7"`. -/
theorem run_command_forced (file : SettingsFile) :
    tlookup (init_settings file) "run_command" = some (Json.str "7") :=
  tlookup_dictSet_self (loadSettings file) "run_command" (Json.str "7")

/-- **C3.** If the prior settings document parses as a JSON object, every key
other than `run_command` maps to the same value after `init_settings` as
before. -/
theorem init_settings_preserves_other_keys (fields : List (String × Json)) (k : String)
    (h : k ≠ "run_command") :
    tlookup (init_settings (some (some (Json.obj fields)))) k = tlookup fields k :=
  tlookup_dictSet_ne fields k "run_command" (Json.str "7") h

/-- Witness for C3: a pre-existing key `foo: "bar"` is still present and
unchanged after reconciliation. -/
theorem init_settings_preserves_other_keys_witness :
    ("foo" ≠ "run_command") ∧
      tlookup (init_settings (some (some (Json.obj [("foo", Json.str "bar")])))) "foo" =
        tlookup [("foo", Json.str "bar")] "foo" :=
  ⟨by decide, init_settings_preserves_other_keys [("foo", Json.str "bar")] "foo" (by decide)⟩

/-- **C4.** If the settings file is absent, fails to parse, or parses to a
non-object, `init_settings` does not abort: it starts from the empty object
and persists exactly the object `{"run_command": "7"}`, which contains the
forced key. -/
theorem init_settings_lenient_recovery (file : SettingsFile)
    (h : file = none ∨ file = some none ∨
        ∃ j, file = some (some j) ∧ j.isObj = false) :
    init_settings file = [("run_command", Json.str "7")] := by
  rcases h with h | h | ⟨j, hf, hj⟩
  · subst h; rfl
  · subst h; rfl
  · subst hf
    cases j <;> simp_all [Json.isObj] <;> rfl

/-- Witness for C4 at a concrete corrupt file (parse failure). -/
theorem init_settings_lenient_recovery_witness :
    init_settings (some (none : Option Json)) = [("run_command", Json.str "7")] :=
  init_settings_lenient_recovery (some none) (Or.inr (Or.inl rfl))

/-! ## Database model (`docker_entry.py`, `init_database`) -/

/-- Rows matching a key are removed; SQLite's conflict resolution for
`INSERT OR REPLACE` on a primary-key collision deletes the old row before
inserting the new one. -/
def deleteKey {α : Type} : List (String × α) → String → List (String × α)
  | [], _ => []
  | (k, v) :: rest, key =>
      if k = key then deleteKey rest key else (k, v) :: deleteKey rest key

/-- `INSERT OR IGNORE INTO t (NAME, VALUE) VALUES (k, v)` on a table whose
`NAME` column is the primary key: insert only when no row with that key
exists. -/
def insertOrIgnore {α : Type} (t : List (String × α)) (k : String) (v : α) :
    List (String × α) :=
  match tlookup t k with
  | some _ => t
  | none => t ++ [(k, v)]

/-- `INSERT OR REPLACE INTO t (NAME, VALUE) VALUES (k, v)`: delete any row
with that primary key, then insert the new row. -/
def insertOrReplace {α : Type} (t : List (String × α)) (k : String) (v : α) :
    List (String × α) :=
  deleteKey t k ++ [(k, v)]

/-- The SQLite database file contents: each table is absent (`none`) or holds
its rows in insertion order.  `config_data` values are integers (the schema
constrains them to {0,1}); `option_data` values are strings; `download_data`
and `mapping_data` are never seeded by the bootstrap. -/
structure DBState where
  config_data : Option (List (String × Int))
  download_data : Option (List String)
  mapping_data : Option (List (String × String × String))
  option_data : Option (List (String × String))

/-- `sqlite3.connect` on an absent database file creates an empty database:
no tables at all. -/
def emptyDB : DBState := ⟨none, none, none, none⟩

/-- The three `config_data` statements of `init_database`
(`docker_entry.py` lines 93-95), in execution order. -/
def seedConfig (t : List (String × Int)) : List (String × Int) :=
  insertOrReplace (insertOrIgnore (insertOrIgnore t "Record" 1) "Logger" 0) "Disclaimer" 1

/-- The two `option_data` statements of `init_database`
(`docker_entry.py` lines 96-97), in execution order. -/
def seedOption (t : List (String × String)) : List (String × String) :=
  insertOrReplace (insertOrIgnore t "Language" "zh_CN") "Language" "zh_CN"

/-- `init_database` (`docker_entry.py` lines 58-100): connect (creating an
empty database if the file is absent), run `CREATE TABLE IF NOT EXISTS` for
the four tables (an absent table becomes an empty one, an existing table is
untouched), then run the five seeding statements and commit. -/
def init_database (db : Option DBState) : DBState :=
  let s := db.getD emptyDB
  { config_data := some (seedConfig (s.config_data.getD []))
    download_data := some (s.download_data.getD [])
    mapping_data := some (s.mapping_data.getD [])
    option_data := some (seedOption (s.option_data.getD [])) }

/-- `SELECT VALUE FROM config_data WHERE NAME = name` against a database
state (no rows when the table is absent). -/
def lookupConfig (s : DBState) (name : String) : Option Int :=
  tlookup (s.config_data.getD []) name

/-- `SELECT VALUE FROM option_data WHERE NAME = name` against a database
state. -/
def lookupOption (s : DBState) (name : String) : Option String :=
  tlookup (s.option_data.getD []) name

/-- Config lookup against a possibly-absent database file. -/
def dbLookupConfig : Option DBState → String → Option Int
  | none, _ => none
  | some s, name => lookupConfig s name

/-! ## Table lemmas -/

theorem tlookup_append_none {α : Type} {a : List (String × α)} {k : String}
    (h : tlookup a k = none) (b : List (String × α)) :
    tlookup (a ++ b) k = tlookup b k := by
  induction a with
  | nil => simp
  | cons p rest ih =>
    obtain ⟨x, y⟩ := p
    by_cases hx : x = k
    · simp [tlookup, hx] at h
    · simp only [tlookup, hx, if_neg hx] at h ⊢
      exact ih h

theorem tlookup_append_some {α : Type} {a : List (String × α)} {k : String} {v : α}
    (h : tlookup a k = some v) (b : List (String × α)) :
    tlookup (a ++ b) k = some v := by
  induction a with
  | nil => simp [tlookup] at h
  | cons p rest ih =>
    obtain ⟨x, y⟩ := p
    by_cases hx : x = k
    · simp only [tlookup, if_pos hx] at h ⊢
      exact h
    · simp only [tlookup, if_neg hx] at h ⊢
      exact ih h

theorem tlookup_deleteKey_self {α : Type} (t : List (String × α)) (k : String) :
    tlookup (deleteKey t k) k = none := by
  induction t with
  | nil => simp [deleteKey, tlookup]
  | cons p rest ih =>
    obtain ⟨x, y⟩ := p
    by_cases hx : x = k
    · simp [deleteKey, hx, ih]
    · simp [deleteKey, tlookup, hx, ih]

theorem tlookup_deleteKey_ne {α : Type} (t : List (String × α)) (k key : String)
    (h : k ≠ key) : tlookup (deleteKey t key) k = tlookup t k := by
  induction t with
  | nil => simp [deleteKey]
  | cons p rest ih =>
    obtain ⟨x, y⟩ := p
    by_cases hx : x = key
    · subst hx
      simp [deleteKey, tlookup, Ne.symm h, ih]
    · simp [deleteKey, tlookup, hx, ih]

theorem deleteKey_append {α : Type} (a b : List (String × α)) (k : String) :
    deleteKey (a ++ b) k = deleteKey a k ++ deleteKey b k := by
  induction a with
  | nil => simp [deleteKey]
  | cons p rest ih =>
    obtain ⟨x, y⟩ := p
    by_cases hx : x = k <;> simp [deleteKey, hx, ih]

theorem deleteKey_of_tlookup_none {α : Type} {t : List (String × α)} {k : String}
    (h : tlookup t k = none) : deleteKey t k = t := by
  induction t with
  | nil => rfl
  | cons p rest ih =>
    obtain ⟨x, y⟩ := p
    by_cases hx : x = k
    · simp [tlookup, hx] at h
    · simp only [tlookup, if_neg hx] at h
      simp [deleteKey, hx, ih h]

theorem tlookup_insertOrReplace_self {α : Type} (t : List (String × α)) (k : String) (v : α) :
    tlookup (insertOrReplace t k v) k = some v := by
  unfold insertOrReplace
  rw [tlookup_append_none (tlookup_deleteKey_self t k)]
  simp [tlookup]

theorem tlookup_insertOrReplace_ne {α : Type} (t : List (String × α)) (k key : String) (v : α)
    (h : k ≠ key) : tlookup (insertOrReplace t key v) k = tlookup t k := by
  unfold insertOrReplace
  cases hc : tlookup t k with
  | none =>
    rw [tlookup_append_none]
    · simp [tlookup, Ne.symm h]
    · rw [tlookup_deleteKey_ne t k key h, hc]
  | some w =>
    apply tlookup_append_some
    rw [tlookup_deleteKey_ne t k key h, hc]

theorem tlookup_insertOrIgnore_self {α : Type} (t : List (String × α)) (k : String) (v : α) :
    tlookup (insertOrIgnore t k v) k = some ((tlookup t k).getD v) := by
  unfold insertOrIgnore
  cases hc : tlookup t k with
  | none =>
    rw [tlookup_append_none hc]
    simp [tlookup]
  | some w => simp [hc]

theorem tlookup_insertOrIgnore_ne {α : Type} (t : List (String × α)) (k key : String) (v : α)
    (h : k ≠ key) : tlookup (insertOrIgnore t key v) k = tlookup t k := by
  unfold insertOrIgnore
  cases hc : tlookup t key with
  | none =>
    cases hck : tlookup t k with
    | none =>
      rw [tlookup_append_none hck]
      simp [tlookup, Ne.symm h]
    | some w => exact tlookup_append_some hck _
  | some w => rfl

theorem insertOrIgnore_of_isSome {α : Type} {t : List (String × α)} {k : String} (v : α)
    (h : (tlookup t k).isSome) : insertOrIgnore t k v = t := by
  unfold insertOrIgnore
  cases hc : tlookup t k with
  | none => rw [hc] at h; simp at h
  | some w => rfl

theorem insertOrReplace_idem {α : Type} (t : List (String × α)) (k : String) (v : α) :
    insertOrReplace (insertOrReplace t k v) k v = insertOrReplace t k v := by
  unfold insertOrReplace
  rw [deleteKey_append]
  rw [deleteKey_of_tlookup_none (tlookup_deleteKey_self t k)]
  simp [deleteKey]

/-! ## Database claims -/

/-- **C5.** For every prior database state, after `init_database` the forced
config row `Disclaimer` has value 1 and the forced option row `Language` has
the fixed locale value `zh_CN`. -/
theorem forced_rows_after_init (db : Option DBState) :
    lookupConfig (init_database db) "Disclaimer" = some 1 ∧
      lookupOption (init_database db) "Language" = some "zh_CN" := by
  constructor
  · show tlookup (seedConfig _) "Disclaimer" = some 1
    exact tlookup_insertOrReplace_self _ "Disclaimer" 1
  · show tlookup (seedOption _) "Language" = some "zh_CN"
    exact tlookup_insertOrReplace_self _ "Language" "zh_CN"

/-- **C6.** For every prior database state, after `init_database` the
default-if-absent rows read their prior value when their primary key already
existed (with any value), and the default (`Record` ↦ 1, `Logger` ↦ 0) only
when no row with that key existed. -/
theorem default_if_absent_rows (db : Option DBState) :
    lookupConfig (init_database db) "Record" =
        some ((dbLookupConfig db "Record").getD 1) ∧
      lookupConfig (init_database db) "Logger" =
        some ((dbLookupConfig db "Logger").getD 0) := by
  have hdb : ∀ name : String,
      dbLookupConfig db name = tlookup ((db.getD emptyDB).config_data.getD []) name := by
    intro name
    cases db with
    | none => simp [dbLookupConfig, emptyDB, tlookup]
    | some s => rfl
  constructor
  · show tlookup (seedConfig _) "Record" = _
    unfold seedConfig
    rw [tlookup_insertOrReplace_ne _ "Record" "Disclaimer" _ (by decide),
      tlookup_insertOrIgnore_ne _ "Record" "Logger" _ (by decide),
      tlookup_insertOrIgnore_self, hdb]
  · show tlookup (seedConfig _) "Logger" = _
    unfold seedConfig
    rw [tlookup_insertOrReplace_ne _ "Logger" "Disclaimer" _ (by decide),
      tlookup_insertOrIgnore_self,
      tlookup_insertOrIgnore_ne _ "Logger" "Record" _ (by decide), hdb]

/-- **C10.** Against every prior table state, the `INSERT OR IGNORE` of
`('Language', 'zh_CN')` immediately followed by the `INSERT OR REPLACE` of
the same row yields the same `option_data` table as the `INSERT OR REPLACE`
alone: the `OR IGNORE` statement is redundant. -/
theorem language_ignore_redundant (t : List (String × String)) :
    insertOrReplace (insertOrIgnore t "Language" "zh_CN") "Language" "zh_CN" =
      insertOrReplace t "Language" "zh_CN" := by
  unfold insertOrIgnore
  cases hc : tlookup t "Language" with
  | some w => rfl
  | none =>
    unfold insertOrReplace
    rw [deleteKey_append, deleteKey_of_tlookup_none hc]
    simp [deleteKey]

/-! ## The composed bootstrap (`docker_entry.py`, `main`) -/

/-- The observable durable state of the volume: whether the directory
exists, the settings file, and the database file. -/
structure Volume where
  dirExists : Bool
  settings : SettingsFile
  db : Option DBState

/-- `ensure_volume` (`docker_entry.py` lines 18-26): `mkdir(parents=True,
exist_ok=True)` — the directory exists afterwards, nothing else changes. -/
def ensure_volume (v : Volume) : Volume := { v with dirExists := true }

/-- The bootstrap sequence of `main` (`docker_entry.py` lines 103-111):
`ensure_volume`, then `init_settings` (whose dict is serialized back to the
settings file, where it parses again as a JSON object), then
`init_database`. -/
def bootstrap (v : Volume) : Volume :=
  { ensure_volume v with
    settings := some (some (Json.obj (init_settings v.settings)))
    db := some (init_database v.db) }

/-- The exec call issued by `main` after the bootstrap:
`os.execvp("python", ["python", "api_main.py"])`. -/
structure ExecCall where
  file : String
  argv : List String

/-- `main` (`docker_entry.py` lines 103-114): the final volume state together
with the exec call that replaces the process image. -/
def docker_main (v : Volume) : Volume × ExecCall :=
  (bootstrap v, ⟨"python", ["python", "api_main.py"]⟩)

/-! ## Idempotency lemmas -/

theorem init_settings_reload (f : SettingsFile) :
    init_settings (some (some (Json.obj (init_settings f)))) = init_settings f := by
  show dictSet (dictSet (loadSettings f) "run_command" (Json.str "7"))
      "run_command" (Json.str "7") = _
  exact dictSet_dictSet_self _ _ _

theorem seedConfig_idem (t : List (String × Int)) :
    seedConfig (seedConfig t) = seedConfig t := by
  have hR : (tlookup (seedConfig t) "Record").isSome := by
    unfold seedConfig
    rw [tlookup_insertOrReplace_ne _ "Record" "Disclaimer" _ (by decide),
      tlookup_insertOrIgnore_ne _ "Record" "Logger" _ (by decide),
      tlookup_insertOrIgnore_self]
    rfl
  have hL : (tlookup (seedConfig t) "Logger").isSome := by
    unfold seedConfig
    rw [tlookup_insertOrReplace_ne _ "Logger" "Disclaimer" _ (by decide),
      tlookup_insertOrIgnore_self]
    rfl
  have h1 : seedConfig (seedConfig t) = insertOrReplace (seedConfig t) "Disclaimer" 1 := by
    show insertOrReplace
        (insertOrIgnore (insertOrIgnore (seedConfig t) "Record" 1) "Logger" 0)
        "Disclaimer" 1 = _
    rw [insertOrIgnore_of_isSome 1 hR, insertOrIgnore_of_isSome 0 hL]
  rw [h1]
  show insertOrReplace (insertOrReplace _ "Disclaimer" 1) "Disclaimer" 1 = _
  exact insertOrReplace_idem _ "Disclaimer" 1

theorem seedOption_idem (t : List (String × String)) :
    seedOption (seedOption t) = seedOption t := by
  have hL : (tlookup (seedOption t) "Language").isSome := by
    unfold seedOption
    rw [tlookup_insertOrReplace_self]
    rfl
  have h1 : seedOption (seedOption t) = insertOrReplace (seedOption t) "Language" "zh_CN" := by
    show insertOrReplace (insertOrIgnore (seedOption t) "Language" "zh_CN")
        "Language" "zh_CN" = _
    rw [insertOrIgnore_of_isSome "zh_CN" hL]
  rw [h1]
  show insertOrReplace (insertOrReplace _ "Language" "zh_CN") "Language" "zh_CN" = _
  exact insertOrReplace_idem _ "Language" "zh_CN"

theorem init_database_idem (db : Option DBState) :
    init_database (some (init_database db)) = init_database db := by
  simp only [init_database, Option.getD_some, seedConfig_idem, seedOption_idem]

/-! ## Bootstrap and handoff claims -/

/-- **C2.** Running the full bootstrap sequence twice in succession against
the same volume, with no external mutation in between, yields the same
end-state (directory existence, settings file, database file) as running it
once. -/
theorem bootstrap_idempotent (v : Volume) : bootstrap (bootstrap v) = bootstrap v := by
  show Volume.mk true
      (some (some (Json.obj (init_settings (some (some (Json.obj (init_settings v.settings))))))))
      (some (init_database (some (init_database v.db))))
    = Volume.mk true
      (some (some (Json.obj (init_settings v.settings))))
      (some (init_database v.db))
  rw [init_settings_reload, init_database_idem]

/-- **C9, counterexample.** The argument vector handed to the exec call is
not only the fixed program name: it also carries the script name
`api_main.py`. -/
theorem handoff_argv_not_singleton :
    (docker_main ⟨false, none, none⟩).2.argv ≠ [(docker_main ⟨false, none, none⟩).2.file] := by
  decide

/-- **C9, amended.** After the bootstrap steps, the handoff execs the fixed
program (`python`) with an argument vector containing exactly the fixed
program name followed by the fixed script name `api_main.py`, and nothing
else — in particular nothing from the bootstrap's own state. -/
theorem handoff_argv_fixed (v : Volume) :
    (docker_main v).2.file = "python" ∧
      (docker_main v).2.argv = ["python", "api_main.py"] :=
  ⟨rfl, rfl⟩

/-! ## Health probe (`healthcheck.py`) and PORT handling (`api_main.py`) -/

/-- Outcome of `urllib.request.urlopen` for a given URL and timeout: either a
response with an HTTP status, or an exception (connection refused, DNS
failure, timeout, or the `HTTPError` raised for error statuses). -/
inductive RequestResult where
  | response (status : Nat) : RequestResult
  | failure : RequestResult

/-- `check` (`healthcheck.py` lines 17-36), parametrized over the network
behaviour `net` (mapping a URL and a timeout to the request outcome):
return 0 only when the response status is exactly 200; any other status
yields 1, and the surrounding `except Exception` turns every exception into
1 as well. -/
def check (net : String → Rat → RequestResult) (url : String) (timeout : Rat) : Nat :=
  match net url timeout with
  | .response s => if s = 200 then 0 else 1
  | .failure => 1

/-- Decimal value of a digit list (most significant first). -/
def digitsVal (cs : List Char) : Nat :=
  cs.foldl (fun acc c => acc * 10 + (c.toNat - 48)) 0

/-- One-or-more decimal digits, as a number; anything else is `none`. -/
def parseNatDigits (cs : List Char) : Option Nat :=
  if cs.isEmpty then none
  else if cs.all Char.isDigit then some (digitsVal cs) else none

/-- Models Python `int(s)` on decimal strings: an optional sign followed by
one or more digits; any other string raises `ValueError`, modelled as
`none`.  (Surrounding whitespace and underscore digit separators, which
Python also accepts, are not modelled; no claim depends on them.) -/
def parsePyInt (s : String) : Option Int :=
  match s.data with
  | '-' :: rest => (parseNatDigits rest).map (fun n => -(n : Int))
  | '+' :: rest => (parseNatDigits rest).map (fun n => (n : Int))
  | cs => (parseNatDigits cs).map (fun n => (n : Int))

/-- Models Python `float(s)` on plain decimal strings: an optional sign,
digits, and an optional fractional part, with at least one digit overall;
any other string raises `ValueError`, modelled as `none`.  The value is kept
as a rational (exponents, `inf`/`nan` and surrounding whitespace are not
modelled; no claim depends on them). -/
def parsePyFloat (s : String) : Option Rat :=
  let core : List Char → Option Rat := fun body =>
    let intPart := body.takeWhile Char.isDigit
    match body.dropWhile Char.isDigit with
    | [] => (parseNatDigits intPart).map (fun n => (n : Rat))
    | '.' :: frac =>
        if frac.all Char.isDigit && !(intPart.isEmpty && frac.isEmpty) then
          some ((digitsVal intPart : Rat) + (digitsVal frac : Rat) / (10 : Rat) ^ frac.length)
        else none
    | _ => none
  match s.data with
  | '-' :: rest => (core rest).map (fun q => -q)
  | '+' :: rest => core rest
  | cs => core cs

/-- `port = os.getenv("PORT", "5555")` in `healthcheck.py` `main`: the raw
string, used verbatim in the URL. -/
def healthcheck_port (env : String → Option String) : String :=
  (env "PORT").getD "5555"

/-- The probed URL built by `healthcheck.py` `main`. -/
def healthcheck_url (env : String → Option String) : String :=
  "http://localhost:" ++ healthcheck_port env ++ "/health"

/-- The timeout computed by `healthcheck.py` `main` (lines 49-53):
`float(os.getenv("HEALTHCHECK_TIMEOUT", "2"))` with every exception caught
and replaced by the default `2.0`. -/
def healthcheck_timeout (env : String → Option String) : Rat :=
  match parsePyFloat ((env "HEALTHCHECK_TIMEOUT").getD "2") with
  | some t => t
  | none => 2

/-- `port = int(os.getenv("PORT", SERVER_PORT))` in `api_main.py`
`start_api_only` (line 39): when `PORT` is unset, `os.getenv` returns the
integer default and `int` passes it through; when `PORT` is set, `int`
parses the string and an unparsable value raises `ValueError`, modelled as
`none` (the coroutine aborts). -/
def start_api_only_port (env : String → Option String) (serverPort : Int) : Option Int :=
  match env "PORT" with
  | some s => parsePyInt s
  | none => some serverPort

/-! ## Probe and environment claims -/

/-- **C7.** For every network behaviour, URL and timeout, `check` returns 0
iff the response status is exactly 200; any other status and any exception
yield 1, and the result is always in {0,1} (no exception propagates). -/
theorem check_contract (net : String → Rat → RequestResult) (url : String) (timeout : Rat) :
    (check net url timeout = 0 ↔ net url timeout = RequestResult.response 200) ∧
      (check net url timeout = 0 ∨ check net url timeout = 1) := by
  cases h : net url timeout with
  | response s =>
    by_cases hs : s = 200 <;> simp [check, h, hs]
  | failure => simp [check, h]

/-- **C8, counterexample.** With `PORT` set to the unparsable string
`"abc"`, the API entrypoint's port read does not fall back to the default:
`int("abc")` raises, modelled as `none`, so the process aborts instead of
using 5555. -/
theorem port_unparsable_aborts :
    start_api_only_port (fun k => if k = "PORT" then some "abc" else none) 5555 = none ∧
      (none : Option Int) ≠ some 5555 := by
  constructor
  · decide
  · decide

/-- **C8, amended.** The health-check timeout override falls back to its
fixed default (2) when unset or unparsable, without aborting; the port
override falls back to its fixed default only when unset (`healthcheck.py`
then uses port string `"5555"` and `api_main.py` uses `SERVER_PORT`). -/
theorem env_fallbacks (env : String → Option String)
    (h : env "HEALTHCHECK_TIMEOUT" = none ∨
        ∃ s, env "HEALTHCHECK_TIMEOUT" = some s ∧ parsePyFloat s = none) :
    healthcheck_timeout env = 2 ∧
      (env "PORT" = none →
        healthcheck_port env = "5555" ∧
          ∀ serverPort : Int, start_api_only_port env serverPort = some serverPort) := by
  constructor
  · rcases h with h | ⟨s, hs, hp⟩
    · have h2 : parsePyFloat "2" = some 2 := by decide
      simp [healthcheck_timeout, h, h2]
    · simp [healthcheck_timeout, hs, hp]
  · intro hport
    refine ⟨?_, fun serverPort => ?_⟩
    · simp [healthcheck_port, hport]
    · simp [start_api_only_port, hport]

/-- Witness for the amended C8 at the empty environment: the timeout is the
default 2 and the API port falls back to the given `SERVER_PORT`. -/
theorem env_fallbacks_witness :
    healthcheck_timeout (fun _ => none) = 2 ∧
      start_api_only_port (fun _ => none) 5555 = some 5555 :=
  ⟨(env_fallbacks (fun _ => none) (Or.inl rfl)).1,
    ((env_fallbacks (fun _ => none) (Or.inl rfl)).2 rfl).2 5555⟩

end DouK
